import Mathlib

/-!
Verification development for the avahi zeroconf service publisher
(`src/qtavahiservice.cpp`).

The C++ class `QtAvahiService` is embedded shallowly:

* `ServiceState` holds the fields of `QtAvahiService` and its private part
  (`m_name`, `m_hostAddress`, ..., the re-register timer, and the
  `d_ptr` fields `name`, `hostAddress`, `port`, `type`, `txtRecords`,
  `group`, `serviceList`, `error`).
* The avahi client and daemon are external collaborators; their answers
  (client state, `avahi_entry_group_add_service_strlst` /
  `avahi_entry_group_commit` / `avahi_entry_group_update_service_txt_strlst`
  error codes) are supplied by an `Env` value.
* The entry group is modelled by the only view the code takes of it:
  whether it exists and whether it is empty
  (`avahi_entry_group_is_empty`).  The TXT string list
  (`d_ptr->serviceList`) is modelled by its allocation flag.
* The unbounded collision-retry recursion of
  `registerService`/`handleCollision` is made total with an explicit
  fuel parameter; exhausted fuel behaves like a failing innermost retry.
-/

/-- Protocol of a `QHostAddress` (`QAbstractSocket::NetworkLayerProtocol`,
restricted to the two cases the code distinguishes). -/
inductive NetProto
  | ipv4
  | ipv6
deriving DecidableEq

/-- A `QHostAddress`: a protocol together with the numeric address value
(32-bit for IPv4, 128-bit for IPv6). -/
structure QHostAddress where
  proto : NetProto
  addr : Nat
deriving DecidableEq

/-- Number of address bits of a protocol. -/
def protoBits : NetProto → Nat
  | NetProto.ipv4 => 32
  | NetProto.ipv6 => 128

/-- The address `QHostAddress("0.0.0.0")` the code compares against. -/
def wildcardAddress : QHostAddress := ⟨NetProto.ipv4, 0⟩

/-- One `QNetworkAddressEntry`: the interface address together with the
prefix length of its netmask.  `QHostAddress::parseSubnet` of
`ip + "/" + netmask` yields the pair (masked ip, prefix length); the
prefix length is carried directly here. -/
structure QNetworkAddressEntry where
  ip : QHostAddress
  prefixLen : Nat
deriving DecidableEq

/-- One `QNetworkInterface`: its index and its address entries. -/
structure QNetworkInterface where
  index : Int
  entries : List QNetworkAddressEntry
deriving DecidableEq

/-- `QHostAddress::isInSubnet(subnet, prefixLen)`: protocols agree and the
first `prefixLen` address bits agree. -/
def isInSubnet (a : QHostAddress) (subnet : QHostAddress) (prefixLen : Nat) : Bool :=
  a.proto = subnet.proto &&
    a.addr / 2 ^ (protoBits a.proto - prefixLen) = subnet.addr / 2 ^ (protoBits a.proto - prefixLen)

/-- The first component of `QHostAddress::parseSubnet(ip + "/" + netmask)`:
the entry's ip truncated to its prefix. -/
def parseSubnetBase (e : QNetworkAddressEntry) : QHostAddress :=
  ⟨e.ip.proto, e.ip.addr / 2 ^ (protoBits e.ip.proto - e.prefixLen) * 2 ^ (protoBits e.ip.proto - e.prefixLen)⟩

/-- `AVAHI_IF_UNSPEC`. -/
def AVAHI_IF_UNSPEC : Int := -1

/-- `AVAHI_ERR_COLLISION`. -/
def AVAHI_ERR_COLLISION : Int := -8

/-- The body of the inner loop of the interface scan: does some address
entry of `iface` put `hostAddress` in its subnet?  (In the C++ code the
inner `foreach` sets `ifIndex` at the first matching entry and then
`break`s out of the inner loop only, so per interface the net effect is
exactly this existence test.) -/
def interfaceMatches (hostAddress : QHostAddress) (iface : QNetworkInterface) : Bool :=
  iface.entries.any (fun e => isInSubnet hostAddress (parseSubnetBase e) e.prefixLen)

/-- The interface-resolution scan shared by `registerService` and
`updateTxtRecord` (`qtavahiservice.cpp` lines 156-167 and 249-260):
`ifIndex` starts at `AVAHI_IF_UNSPEC`; unless the host address equals
`QHostAddress("0.0.0.0")`, the outer `foreach` walks all interfaces and
every interface with a matching address entry overwrites `ifIndex` with
its index (the `break` leaves only the inner loop, so the outer loop
keeps running and later matches win). -/
def resolveIfIndex (hostAddress : QHostAddress) (interfaces : List QNetworkInterface) : Int :=
  if hostAddress = wildcardAddress then
    AVAHI_IF_UNSPEC
  else
    interfaces.foldl
      (fun ifIndex iface => if interfaceMatches hostAddress iface then iface.index else ifIndex)
      AVAHI_IF_UNSPEC

/-- Spec-side definition, following the spec's words: return the index of
the FIRST interface whose subnet contains the address, or unspecified if
the address is the wildcard or no interface matches.  Written for
comparison with `resolveIfIndex`, which is translated from the code. -/
def resolveIfIndexSpecFirst (hostAddress : QHostAddress) (interfaces : List QNetworkInterface) : Int :=
  if hostAddress = wildcardAddress then
    AVAHI_IF_UNSPEC
  else
    match interfaces.find? (interfaceMatches hostAddress) with
    | some iface => iface.index
    | none => AVAHI_IF_UNSPEC

/-- Index of the last interface of the list satisfying `p`, if any:
later interfaces take precedence. -/
def lastMatchIndex (p : QNetworkInterface → Bool) : List QNetworkInterface → Option Int
  | [] => none
  | iface :: rest =>
    match lastMatchIndex p rest with
    | some k => some k
    | none => if p iface then some iface.index else none

/-- Spec-side definition of what the code actually computes: the index of
the LAST interface whose subnet contains the address. -/
def resolveIfIndexSpecLast (hostAddress : QHostAddress) (interfaces : List QNetworkInterface) : Int :=
  if hostAddress = wildcardAddress then
    AVAHI_IF_UNSPEC
  else
    (lastMatchIndex (interfaceMatches hostAddress) interfaces).getD AVAHI_IF_UNSPEC

/-- `QtAvahiService::QtAvahiServiceState` (values as documented in
`qtavahiservice.cpp`). -/
inductive QtAvahiServiceState
  | Uncommitted
  | Registering
  | Established
  | Collision
  | Failure
deriving DecidableEq

/-- The avahi client states (`AvahiClientState`); the code only compares
against `AVAHI_CLIENT_S_RUNNING`. -/
inductive AvahiClientState
  | registering
  | running
  | collision
  | failure
  | connecting
deriving DecidableEq

/-- The `QHash<QString, QString>` of TXT records, as the association list
of its entries. -/
abbrev TxtMap := List (String × String)

/-- Modelled from the spec: `DiscoveryClient.LastErrorString` /
`avahi_strerror` is part of the external avahi library, not of this
repository's sources.  Avahi documents it as returning a human readable
description for every error code (falling back to a fixed string for
unknown codes); a representative table entry plus that fallback is
modelled here. -/
def avahi_strerror (errorCode : Int) : String :=
  if errorCode = 0 then "OK"
  else if errorCode = AVAHI_ERR_COLLISION then "Local name collision"
  else "Invalid Error Code"

/-- Modelled from the spec: `NameMangler.AlternativeName` /
`avahi_alternative_service_name` is an external avahi utility, not in
this repository's sources.  The spec requires only that it "produces a
distinct candidate name" (e.g. by appending a numeric suffix), which is
what is modelled. -/
def avahi_alternative_service_name (currentName : String) : String :=
  currentName ++ " #2"

/-- The external world of one call into the discovery layer: the avahi
client's availability and state, the client's errno, the local network
interfaces, and the error codes the daemon answers with
(`addServiceError` may depend on the service name, which is how name
collisions manifest). -/
structure Env where
  clientPresent : Bool
  clientState : AvahiClientState
  clientErrno : Int
  interfaces : List QNetworkInterface
  addServiceError : String → Int
  commitError : Int
  updateTxtError : Int

/-- The precondition check of `registerService`:
`d_ptr->client->m_client` is non-null and
`avahi_client_get_state(...) == AVAHI_CLIENT_S_RUNNING`. -/
def clientReady (env : Env) : Bool :=
  env.clientPresent && env.clientState = AvahiClientState.running

/-- The mutable fields of one `QtAvahiService` object together with its
private part (`QtAvahiServicePrivate`) and its re-register timer.
`group = none` means no entry group was created yet; `group = some e`
means the group exists and `e` is the value of
`avahi_entry_group_is_empty` on it.  `serviceList` is the allocation
flag of `d_ptr->serviceList`.  `lastIfIndex` is a ghost field recording
the interface index most recently passed to the discovery layer (by
`avahi_entry_group_add_service_strlst` or
`avahi_entry_group_update_service_txt_strlst`). -/
structure ServiceState where
  m_state : QtAvahiServiceState
  m_name : String
  m_hostAddress : QHostAddress
  m_port : Nat
  m_serviceType : String
  m_txtRecords : TxtMap
  timerRunning : Bool
  timerIntervalMs : Nat
  timerSingleShot : Bool
  dname : String
  dhostAddress : QHostAddress
  dport : Nat
  dtype : String
  dtxtRecords : TxtMap
  group : Option Bool
  serviceList : Bool
  error : Int
  lastIfIndex : Option Int
deriving DecidableEq

/-- `QtAvahiService::name`: returns `d_ptr->name`. -/
def ServiceState.name (s : ServiceState) : String := s.dname

/-- `QtAvahiService::hostAddress`: returns `d_ptr->hostAddress`. -/
def ServiceState.hostAddress (s : ServiceState) : QHostAddress := s.dhostAddress

/-- `QtAvahiService::port`: returns `d_ptr->port`. -/
def ServiceState.port (s : ServiceState) : Nat := s.dport

/-- `QtAvahiService::serviceType`: returns `d_ptr->type`. -/
def ServiceState.serviceType (s : ServiceState) : String := s.dtype

/-- `QtAvahiService::txtRecords`: returns `d_ptr->txtRecords`. -/
def ServiceState.txtRecords (s : ServiceState) : TxtMap := s.dtxtRecords

/-- `QtAvahiService::state`: returns `m_state`. -/
def ServiceState.state (s : ServiceState) : QtAvahiServiceState := s.m_state

/-- `QtAvahiService::isValid`: `d_ptr->group && !d_ptr->error`. -/
def ServiceState.isValid (s : ServiceState) : Bool :=
  s.group.isSome && s.error = 0

/-- `QtAvahiService::errorString`: `"Invalid client."` when the avahi
client object was never created, otherwise
`avahi_strerror(avahi_client_errno(...))`. -/
def errorString (env : Env) : String :=
  if !env.clientPresent then "Invalid client."
  else avahi_strerror env.clientErrno

/-- The state of a freshly constructed `QtAvahiService`: state
`Uncommitted`, a 60000 ms single-shot re-register timer (not running),
no entry group, no TXT string list, no error, default-constructed
descriptor fields. -/
def initState : ServiceState :=
  { m_state := QtAvahiServiceState.Uncommitted
    m_name := ""
    m_hostAddress := ⟨NetProto.ipv4, 0⟩
    m_port := 0
    m_serviceType := ""
    m_txtRecords := []
    timerRunning := false
    timerIntervalMs := 60000
    timerSingleShot := true
    dname := ""
    dhostAddress := ⟨NetProto.ipv4, 0⟩
    dport := 0
    dtype := ""
    dtxtRecords := []
    group := none
    serviceList := false
    error := 0
    lastIfIndex := none }

/-- `QtAvahiService::resetService`: warn and return if no group exists;
otherwise free the TXT string list (if any), reset the entry group
(withdrawing its entries, so it becomes empty again) and stop the
re-register timer.  The `silent` flag only controls logging. -/
def resetService (silent : Bool) (s : ServiceState) : ServiceState :=
  if s.group = none then s
  else { s with serviceList := false, group := some true, timerRunning := false }

/-- Lines 135-147 of `registerService`: cache the call's arguments both
in the `m_` fields and in the `d_ptr` fields. -/
def cacheDescriptor (name : String) (hostAddress : QHostAddress) (port : Nat)
    (serviceType : String) (txtRecords : TxtMap) (s : ServiceState) : ServiceState :=
  { s with
    m_name := name, m_hostAddress := hostAddress, m_port := port,
    m_serviceType := serviceType, m_txtRecords := txtRecords,
    dname := name, dhostAddress := hostAddress, dport := port,
    dtype := serviceType, dtxtRecords := txtRecords }

/-- Lines 149-151 of `registerService`: create the entry group (empty) if
it does not exist yet. -/
def ensureGroup (s : ServiceState) : ServiceState :=
  if s.group = none then { s with group := some true } else s

/-- Lines 173-183 of `registerService`: build the TXT string list and
call `avahi_entry_group_add_service_strlst`, storing its result in
`d_ptr->error`.  On success the group is no longer empty. -/
def addService (env : Env) (ifIndex : Int) (name : String) (s : ServiceState) : ServiceState :=
  let e := env.addServiceError name
  { s with
    serviceList := true
    lastIfIndex := some ifIndex
    error := e
    group := some (if e = 0 then false else true) }

/-- Lines 201-216 of `registerService`: commit the group; on a commit
error log and return false, otherwise start the re-register timer and
return true. -/
def commitGroup (env : Env) (s : ServiceState) : Bool × ServiceState :=
  let s := { s with error := env.commitError }
  if env.commitError = 0 then (true, { s with timerRunning := true })
  else (false, s)

/-- `QtAvahiService::registerService`.  Checks that the avahi client is
running, caches the descriptor, creates the group if needed, and — if
the group is empty — resolves the outgoing interface, adds the service
entry, handles a synchronous name collision by resetting and retrying
under the alternative name (the body of `handleCollision`, inlined here
because the two functions are mutually recursive in the C++ source;
`fuel` bounds that recursion), and commits.  A non-empty group fails
with "already registered". -/
def registerService (fuel : Nat) (env : Env) (name : String) (hostAddress : QHostAddress)
    (port : Nat) (serviceType : String) (txtRecords : TxtMap) (silent : Bool)
    (s : ServiceState) : Bool × ServiceState :=
  if clientReady env then
    let s1 := ensureGroup (cacheDescriptor name hostAddress port serviceType txtRecords s)
    if s1.group = some true then
      let s2 := addService env (resolveIfIndex hostAddress env.interfaces) name s1
      if s2.error = 0 then
        commitGroup env s2
      else if s2.error = AVAHI_ERR_COLLISION then
        match fuel with
        | 0 => (false, s2)
        | fuel' + 1 =>
          let alternativeServiceName := avahi_alternative_service_name s2.name
          let s3 := resetService false s2
          let r := registerService fuel' env alternativeServiceName s3.hostAddress s3.port
            s3.serviceType s3.txtRecords false s3
          if r.1 then commitGroup env r.2 else (false, r.2)
      else (false, s2)
    else (false, s1)
  else (false, s)

/-- `QtAvahiService::handleCollision`: pick the alternative service name,
reset the service, and register again with the current host address,
port, service type and TXT records. -/
def handleCollision (fuel : Nat) (env : Env) (s : ServiceState) : Bool × ServiceState :=
  let alternativeServiceName := avahi_alternative_service_name s.name
  let s' := resetService false s
  registerService fuel env alternativeServiceName s'.hostAddress s'.port s'.serviceType
    s'.txtRecords false s'

/-- `QtAvahiService::updateTxtRecord`: fail if no group exists; otherwise
store the new records in `m_txtRecords`, resolve the interface for the
stored `d_ptr->hostAddress`, rebuild the TXT string list and call
`avahi_entry_group_update_service_txt_strlst`, failing on a non-zero
error.  (`d_ptr->txtRecords` is not touched.) -/
def updateTxtRecord (env : Env) (txtRecords : TxtMap) (s : ServiceState) : Bool × ServiceState :=
  if s.group = none then (false, s)
  else
    let s := { s with m_txtRecords := txtRecords }
    let ifIndex := resolveIfIndex s.dhostAddress env.interfaces
    let s := { s with serviceList := true, lastIfIndex := some ifIndex,
                      error := env.updateTxtError }
    if env.updateTxtError = 0 then (true, s) else (false, s)

/-- `QtAvahiService::onStateChanged`: ignore a state equal to the cached
one; otherwise cache the new state and, exactly for `Collision`, run
`handleCollision` (the other cases of the switch only contain
commented-out logging). -/
def onStateChanged (fuel : Nat) (env : Env) (state : QtAvahiServiceState)
    (s : ServiceState) : ServiceState :=
  if s.m_state = state then s
  else
    let s1 := { s with m_state := state }
    match state with
    | QtAvahiServiceState.Collision => (handleCollision fuel env s1).2
    | _ => s1

/-- The slot connected to `m_reregisterTimer`'s timeout (constructor,
lines 72-76): when the single-shot timer fires (it has stopped by then),
`resetService(true)` followed by `registerService` with the cached `m_`
fields, silent. -/
def timerFired (fuel : Nat) (env : Env) (s : ServiceState) : ServiceState :=
  if s.timerRunning then
    let s0 := { s with timerRunning := false }
    let s1 := resetService true s0
    (registerService fuel env s0.m_name s0.m_hostAddress s0.m_port s0.m_serviceType
      s0.m_txtRecords true s1).2
  else s

/-- One externally triggered event on a `QtAvahiService`: a call of one
of its public methods, delivery of a group state change, or the
re-register timer firing.  Each event sees its own external world. -/
inductive ServiceStep : ServiceState → ServiceState → Prop
  | register (fuel : Nat) (env : Env) (name : String) (hostAddress : QHostAddress)
      (port : Nat) (serviceType : String) (txtRecords : TxtMap) (silent : Bool)
      (s : ServiceState) :
      ServiceStep s (registerService fuel env name hostAddress port serviceType txtRecords silent s).2
  | reset (silent : Bool) (s : ServiceState) : ServiceStep s (resetService silent s)
  | update (env : Env) (txtRecords : TxtMap) (s : ServiceState) :
      ServiceStep s (updateTxtRecord env txtRecords s).2
  | stateChanged (fuel : Nat) (env : Env) (state : QtAvahiServiceState) (s : ServiceState) :
      ServiceStep s (onStateChanged fuel env state s)
  | timer (fuel : Nat) (env : Env) (s : ServiceState) :
      ServiceStep s (timerFired fuel env s)

/-- The configurations a `QtAvahiService` can reach from construction. -/
inductive Reachable : ServiceState → Prop
  | init : Reachable initState
  | step {s s' : ServiceState} : Reachable s → ServiceStep s s' → Reachable s'

/-- An environment in which everything works: the avahi client is running
and the daemon accepts every add, commit and update. -/
def envOk : Env :=
  { clientPresent := true
    clientState := AvahiClientState.running
    clientErrno := 0
    interfaces := []
    addServiceError := fun _ => 0
    commitError := 0
    updateTxtError := 0 }

/-- An environment whose avahi client was never created. -/
def envDown : Env :=
  { envOk with clientPresent := false }

/-- An environment in which `avahi_entry_group_add_service_strlst` fails
with a non-collision error for every name. -/
def envAddFail : Env :=
  { envOk with addServiceError := fun _ => -1 }

/-- An environment in which `avahi_entry_group_commit` fails. -/
def envCommitFail : Env :=
  { envOk with commitError := -1 }

/-- An environment in which exactly the name "printer" collides. -/
def envCollideOnce : Env :=
  { envOk with
    addServiceError := fun n => if n = "printer" then AVAHI_ERR_COLLISION else 0 }

/-- A local interface with index 1 whose only address entry is the subnet
1.0.0.0/8 written as address 1 with prefix length 8. -/
def ifaceOne : QNetworkInterface := ⟨1, [⟨⟨NetProto.ipv4, 1⟩, 8⟩]⟩

/-- A second local interface, index 2, with the overlapping entry 2/8. -/
def ifaceTwo : QNetworkInterface := ⟨2, [⟨⟨NetProto.ipv4, 2⟩, 8⟩]⟩

/-- An IPv4 address (numeric value 5) inside both interfaces' subnets. -/
def overlapAddress : QHostAddress := ⟨NetProto.ipv4, 5⟩

/-- `envOk` with the two overlapping interfaces above. -/
def envTwoIfaces : Env :=
  { envOk with interfaces := [ifaceOne, ifaceTwo] }

/-- A service whose entry group exists and is still empty. -/
def sGroupEmpty : ServiceState :=
  { initState with group := some true }

/-- A service called "printer" whose group holds a committed entry. -/
def sPrinter : ServiceState :=
  { initState with
    m_name := "printer", dname := "printer", group := some false, serviceList := true }

/-- The state after one successful registration of "printer" with a TXT
record, starting from a fresh service. -/
def sRegistered : ServiceState :=
  (registerService 1 envOk "printer" wildcardAddress 9100 "_ipp._tcp" [("note", "office")]
    false initState).2

theorem foldl_pick_eq_lastMatch (p : QNetworkInterface → Bool) (l : List QNetworkInterface) :
    ∀ acc : Int,
      l.foldl (fun ifIndex iface => if p iface then iface.index else ifIndex) acc
        = (lastMatchIndex p l).getD acc := by
  induction l with
  | nil => intro acc; rfl
  | cons iface rest ih =>
    intro acc
    simp only [List.foldl_cons, lastMatchIndex]
    rw [ih]
    cases h : lastMatchIndex p rest with
    | some k => simp
    | none =>
      by_cases hp : p iface <;> simp [hp]

theorem resolveIfIndex_eq_specLast (hostAddress : QHostAddress)
    (interfaces : List QNetworkInterface) :
    resolveIfIndex hostAddress interfaces = resolveIfIndexSpecLast hostAddress interfaces := by
  unfold resolveIfIndex resolveIfIndexSpecLast
  by_cases h : hostAddress = wildcardAddress
  · simp [h]
  · simp [h, foldl_pick_eq_lastMatch]

theorem ensureGroup_of_none {s : ServiceState} (h : s.group = none) :
    ensureGroup s = { s with group := some true } := by
  unfold ensureGroup
  simp [h]

theorem ensureGroup_of_ne_none {s : ServiceState} (h : s.group ≠ none) :
    ensureGroup s = s := by
  unfold ensureGroup
  simp [h]

theorem resetService_of_none {silent : Bool} {s : ServiceState} (h : s.group = none) :
    resetService silent s = s := by
  unfold resetService
  simp [h]

theorem resetService_of_ne_none {silent : Bool} {s : ServiceState} (h : s.group ≠ none) :
    resetService silent s =
      { s with serviceList := false, group := some true, timerRunning := false } := by
  unfold resetService
  simp [h]

@[simp] theorem cacheDescriptor_m_state (name : String) (hostAddress : QHostAddress)
    (port : Nat) (serviceType : String) (txtRecords : TxtMap) (s : ServiceState) :
    (cacheDescriptor name hostAddress port serviceType txtRecords s).m_state = s.m_state := rfl

@[simp] theorem cacheDescriptor_m_name (name : String) (hostAddress : QHostAddress)
    (port : Nat) (serviceType : String) (txtRecords : TxtMap) (s : ServiceState) :
    (cacheDescriptor name hostAddress port serviceType txtRecords s).m_name = name := rfl

@[simp] theorem cacheDescriptor_m_hostAddress (name : String) (hostAddress : QHostAddress)
    (port : Nat) (serviceType : String) (txtRecords : TxtMap) (s : ServiceState) :
    (cacheDescriptor name hostAddress port serviceType txtRecords s).m_hostAddress = hostAddress := rfl

@[simp] theorem cacheDescriptor_m_port (name : String) (hostAddress : QHostAddress)
    (port : Nat) (serviceType : String) (txtRecords : TxtMap) (s : ServiceState) :
    (cacheDescriptor name hostAddress port serviceType txtRecords s).m_port = port := rfl

@[simp] theorem cacheDescriptor_m_serviceType (name : String) (hostAddress : QHostAddress)
    (port : Nat) (serviceType : String) (txtRecords : TxtMap) (s : ServiceState) :
    (cacheDescriptor name hostAddress port serviceType txtRecords s).m_serviceType = serviceType := rfl

@[simp] theorem cacheDescriptor_m_txtRecords (name : String) (hostAddress : QHostAddress)
    (port : Nat) (serviceType : String) (txtRecords : TxtMap) (s : ServiceState) :
    (cacheDescriptor name hostAddress port serviceType txtRecords s).m_txtRecords = txtRecords := rfl

@[simp] theorem cacheDescriptor_timerRunning (name : String) (hostAddress : QHostAddress)
    (port : Nat) (serviceType : String) (txtRecords : TxtMap) (s : ServiceState) :
    (cacheDescriptor name hostAddress port serviceType txtRecords s).timerRunning = s.timerRunning := rfl

@[simp] theorem cacheDescriptor_timerIntervalMs (name : String) (hostAddress : QHostAddress)
    (port : Nat) (serviceType : String) (txtRecords : TxtMap) (s : ServiceState) :
    (cacheDescriptor name hostAddress port serviceType txtRecords s).timerIntervalMs = s.timerIntervalMs := rfl

@[simp] theorem cacheDescriptor_timerSingleShot (name : String) (hostAddress : QHostAddress)
    (port : Nat) (serviceType : String) (txtRecords : TxtMap) (s : ServiceState) :
    (cacheDescriptor name hostAddress port serviceType txtRecords s).timerSingleShot = s.timerSingleShot := rfl

@[simp] theorem cacheDescriptor_dname (name : String) (hostAddress : QHostAddress)
    (port : Nat) (serviceType : String) (txtRecords : TxtMap) (s : ServiceState) :
    (cacheDescriptor name hostAddress port serviceType txtRecords s).dname = name := rfl

@[simp] theorem cacheDescriptor_dhostAddress (name : String) (hostAddress : QHostAddress)
    (port : Nat) (serviceType : String) (txtRecords : TxtMap) (s : ServiceState) :
    (cacheDescriptor name hostAddress port serviceType txtRecords s).dhostAddress = hostAddress := rfl

@[simp] theorem cacheDescriptor_dport (name : String) (hostAddress : QHostAddress)
    (port : Nat) (serviceType : String) (txtRecords : TxtMap) (s : ServiceState) :
    (cacheDescriptor name hostAddress port serviceType txtRecords s).dport = port := rfl

@[simp] theorem cacheDescriptor_dtype (name : String) (hostAddress : QHostAddress)
    (port : Nat) (serviceType : String) (txtRecords : TxtMap) (s : ServiceState) :
    (cacheDescriptor name hostAddress port serviceType txtRecords s).dtype = serviceType := rfl

@[simp] theorem cacheDescriptor_dtxtRecords (name : String) (hostAddress : QHostAddress)
    (port : Nat) (serviceType : String) (txtRecords : TxtMap) (s : ServiceState) :
    (cacheDescriptor name hostAddress port serviceType txtRecords s).dtxtRecords = txtRecords := rfl

@[simp] theorem cacheDescriptor_group (name : String) (hostAddress : QHostAddress)
    (port : Nat) (serviceType : String) (txtRecords : TxtMap) (s : ServiceState) :
    (cacheDescriptor name hostAddress port serviceType txtRecords s).group = s.group := rfl

@[simp] theorem cacheDescriptor_serviceList (name : String) (hostAddress : QHostAddress)
    (port : Nat) (serviceType : String) (txtRecords : TxtMap) (s : ServiceState) :
    (cacheDescriptor name hostAddress port serviceType txtRecords s).serviceList = s.serviceList := rfl

@[simp] theorem cacheDescriptor_error (name : String) (hostAddress : QHostAddress)
    (port : Nat) (serviceType : String) (txtRecords : TxtMap) (s : ServiceState) :
    (cacheDescriptor name hostAddress port serviceType txtRecords s).error = s.error := rfl

@[simp] theorem cacheDescriptor_lastIfIndex (name : String) (hostAddress : QHostAddress)
    (port : Nat) (serviceType : String) (txtRecords : TxtMap) (s : ServiceState) :
    (cacheDescriptor name hostAddress port serviceType txtRecords s).lastIfIndex = s.lastIfIndex := rfl

@[simp] theorem ensureGroup_m_state (s : ServiceState) :
    (ensureGroup s).m_state = s.m_state := by
  unfold ensureGroup; split <;> rfl

@[simp] theorem ensureGroup_m_name (s : ServiceState) :
    (ensureGroup s).m_name = s.m_name := by
  unfold ensureGroup; split <;> rfl

@[simp] theorem ensureGroup_m_hostAddress (s : ServiceState) :
    (ensureGroup s).m_hostAddress = s.m_hostAddress := by
  unfold ensureGroup; split <;> rfl

@[simp] theorem ensureGroup_m_port (s : ServiceState) :
    (ensureGroup s).m_port = s.m_port := by
  unfold ensureGroup; split <;> rfl

@[simp] theorem ensureGroup_m_serviceType (s : ServiceState) :
    (ensureGroup s).m_serviceType = s.m_serviceType := by
  unfold ensureGroup; split <;> rfl

@[simp] theorem ensureGroup_m_txtRecords (s : ServiceState) :
    (ensureGroup s).m_txtRecords = s.m_txtRecords := by
  unfold ensureGroup; split <;> rfl

@[simp] theorem ensureGroup_timerRunning (s : ServiceState) :
    (ensureGroup s).timerRunning = s.timerRunning := by
  unfold ensureGroup; split <;> rfl

@[simp] theorem ensureGroup_timerIntervalMs (s : ServiceState) :
    (ensureGroup s).timerIntervalMs = s.timerIntervalMs := by
  unfold ensureGroup; split <;> rfl

@[simp] theorem ensureGroup_timerSingleShot (s : ServiceState) :
    (ensureGroup s).timerSingleShot = s.timerSingleShot := by
  unfold ensureGroup; split <;> rfl

@[simp] theorem ensureGroup_dname (s : ServiceState) :
    (ensureGroup s).dname = s.dname := by
  unfold ensureGroup; split <;> rfl

@[simp] theorem ensureGroup_dhostAddress (s : ServiceState) :
    (ensureGroup s).dhostAddress = s.dhostAddress := by
  unfold ensureGroup; split <;> rfl

@[simp] theorem ensureGroup_dport (s : ServiceState) :
    (ensureGroup s).dport = s.dport := by
  unfold ensureGroup; split <;> rfl

@[simp] theorem ensureGroup_dtype (s : ServiceState) :
    (ensureGroup s).dtype = s.dtype := by
  unfold ensureGroup; split <;> rfl

@[simp] theorem ensureGroup_dtxtRecords (s : ServiceState) :
    (ensureGroup s).dtxtRecords = s.dtxtRecords := by
  unfold ensureGroup; split <;> rfl

@[simp] theorem ensureGroup_serviceList (s : ServiceState) :
    (ensureGroup s).serviceList = s.serviceList := by
  unfold ensureGroup; split <;> rfl

@[simp] theorem ensureGroup_error (s : ServiceState) :
    (ensureGroup s).error = s.error := by
  unfold ensureGroup; split <;> rfl

@[simp] theorem ensureGroup_lastIfIndex (s : ServiceState) :
    (ensureGroup s).lastIfIndex = s.lastIfIndex := by
  unfold ensureGroup; split <;> rfl

@[simp] theorem addService_m_state (env : Env) (ifIndex : Int) (name : String)
    (s : ServiceState) : (addService env ifIndex name s).m_state = s.m_state := rfl

@[simp] theorem addService_m_name (env : Env) (ifIndex : Int) (name : String)
    (s : ServiceState) : (addService env ifIndex name s).m_name = s.m_name := rfl

@[simp] theorem addService_m_hostAddress (env : Env) (ifIndex : Int) (name : String)
    (s : ServiceState) : (addService env ifIndex name s).m_hostAddress = s.m_hostAddress := rfl

@[simp] theorem addService_m_port (env : Env) (ifIndex : Int) (name : String)
    (s : ServiceState) : (addService env ifIndex name s).m_port = s.m_port := rfl

@[simp] theorem addService_m_serviceType (env : Env) (ifIndex : Int) (name : String)
    (s : ServiceState) : (addService env ifIndex name s).m_serviceType = s.m_serviceType := rfl

@[simp] theorem addService_m_txtRecords (env : Env) (ifIndex : Int) (name : String)
    (s : ServiceState) : (addService env ifIndex name s).m_txtRecords = s.m_txtRecords := rfl

@[simp] theorem addService_timerRunning (env : Env) (ifIndex : Int) (name : String)
    (s : ServiceState) : (addService env ifIndex name s).timerRunning = s.timerRunning := rfl

@[simp] theorem addService_timerIntervalMs (env : Env) (ifIndex : Int) (name : String)
    (s : ServiceState) : (addService env ifIndex name s).timerIntervalMs = s.timerIntervalMs := rfl

@[simp] theorem addService_timerSingleShot (env : Env) (ifIndex : Int) (name : String)
    (s : ServiceState) : (addService env ifIndex name s).timerSingleShot = s.timerSingleShot := rfl

@[simp] theorem addService_dname (env : Env) (ifIndex : Int) (name : String)
    (s : ServiceState) : (addService env ifIndex name s).dname = s.dname := rfl

@[simp] theorem addService_dhostAddress (env : Env) (ifIndex : Int) (name : String)
    (s : ServiceState) : (addService env ifIndex name s).dhostAddress = s.dhostAddress := rfl

@[simp] theorem addService_dport (env : Env) (ifIndex : Int) (name : String)
    (s : ServiceState) : (addService env ifIndex name s).dport = s.dport := rfl

@[simp] theorem addService_dtype (env : Env) (ifIndex : Int) (name : String)
    (s : ServiceState) : (addService env ifIndex name s).dtype = s.dtype := rfl

@[simp] theorem addService_dtxtRecords (env : Env) (ifIndex : Int) (name : String)
    (s : ServiceState) : (addService env ifIndex name s).dtxtRecords = s.dtxtRecords := rfl

@[simp] theorem addService_group (env : Env) (ifIndex : Int) (name : String)
    (s : ServiceState) : (addService env ifIndex name s).group = some (if env.addServiceError name = 0 then false else true) := rfl

@[simp] theorem addService_serviceList (env : Env) (ifIndex : Int) (name : String)
    (s : ServiceState) : (addService env ifIndex name s).serviceList = true := rfl

@[simp] theorem addService_error (env : Env) (ifIndex : Int) (name : String)
    (s : ServiceState) : (addService env ifIndex name s).error = env.addServiceError name := rfl

@[simp] theorem addService_lastIfIndex (env : Env) (ifIndex : Int) (name : String)
    (s : ServiceState) : (addService env ifIndex name s).lastIfIndex = some ifIndex := rfl

@[simp] theorem commitGroup_snd_m_state (env : Env) (s : ServiceState) :
    (commitGroup env s).2.m_state = s.m_state := by
  unfold commitGroup; split <;> simp_all

@[simp] theorem commitGroup_snd_m_name (env : Env) (s : ServiceState) :
    (commitGroup env s).2.m_name = s.m_name := by
  unfold commitGroup; split <;> simp_all

@[simp] theorem commitGroup_snd_m_hostAddress (env : Env) (s : ServiceState) :
    (commitGroup env s).2.m_hostAddress = s.m_hostAddress := by
  unfold commitGroup; split <;> simp_all

@[simp] theorem commitGroup_snd_m_port (env : Env) (s : ServiceState) :
    (commitGroup env s).2.m_port = s.m_port := by
  unfold commitGroup; split <;> simp_all

@[simp] theorem commitGroup_snd_m_serviceType (env : Env) (s : ServiceState) :
    (commitGroup env s).2.m_serviceType = s.m_serviceType := by
  unfold commitGroup; split <;> simp_all

@[simp] theorem commitGroup_snd_m_txtRecords (env : Env) (s : ServiceState) :
    (commitGroup env s).2.m_txtRecords = s.m_txtRecords := by
  unfold commitGroup; split <;> simp_all

@[simp] theorem commitGroup_snd_timerRunning (env : Env) (s : ServiceState) :
    (commitGroup env s).2.timerRunning = if env.commitError = 0 then true else s.timerRunning := by
  unfold commitGroup; split <;> simp_all

@[simp] theorem commitGroup_snd_timerIntervalMs (env : Env) (s : ServiceState) :
    (commitGroup env s).2.timerIntervalMs = s.timerIntervalMs := by
  unfold commitGroup; split <;> simp_all

@[simp] theorem commitGroup_snd_timerSingleShot (env : Env) (s : ServiceState) :
    (commitGroup env s).2.timerSingleShot = s.timerSingleShot := by
  unfold commitGroup; split <;> simp_all

@[simp] theorem commitGroup_snd_dname (env : Env) (s : ServiceState) :
    (commitGroup env s).2.dname = s.dname := by
  unfold commitGroup; split <;> simp_all

@[simp] theorem commitGroup_snd_dhostAddress (env : Env) (s : ServiceState) :
    (commitGroup env s).2.dhostAddress = s.dhostAddress := by
  unfold commitGroup; split <;> simp_all

@[simp] theorem commitGroup_snd_dport (env : Env) (s : ServiceState) :
    (commitGroup env s).2.dport = s.dport := by
  unfold commitGroup; split <;> simp_all

@[simp] theorem commitGroup_snd_dtype (env : Env) (s : ServiceState) :
    (commitGroup env s).2.dtype = s.dtype := by
  unfold commitGroup; split <;> simp_all

@[simp] theorem commitGroup_snd_dtxtRecords (env : Env) (s : ServiceState) :
    (commitGroup env s).2.dtxtRecords = s.dtxtRecords := by
  unfold commitGroup; split <;> simp_all

@[simp] theorem commitGroup_snd_group (env : Env) (s : ServiceState) :
    (commitGroup env s).2.group = s.group := by
  unfold commitGroup; split <;> simp_all

@[simp] theorem commitGroup_snd_serviceList (env : Env) (s : ServiceState) :
    (commitGroup env s).2.serviceList = s.serviceList := by
  unfold commitGroup; split <;> simp_all

@[simp] theorem commitGroup_snd_error (env : Env) (s : ServiceState) :
    (commitGroup env s).2.error = env.commitError := by
  unfold commitGroup; split <;> simp_all

@[simp] theorem commitGroup_snd_lastIfIndex (env : Env) (s : ServiceState) :
    (commitGroup env s).2.lastIfIndex = s.lastIfIndex := by
  unfold commitGroup; split <;> simp_all

@[simp] theorem commitGroup_fst (env : Env) (s : ServiceState) :
    (commitGroup env s).1 = decide (env.commitError = 0) := by
  unfold commitGroup; split <;> simp_all

@[simp] theorem resetService_m_state (silent : Bool) (s : ServiceState) :
    (resetService silent s).m_state = s.m_state := by
  unfold resetService; split <;> simp_all

@[simp] theorem resetService_m_name (silent : Bool) (s : ServiceState) :
    (resetService silent s).m_name = s.m_name := by
  unfold resetService; split <;> simp_all

@[simp] theorem resetService_m_hostAddress (silent : Bool) (s : ServiceState) :
    (resetService silent s).m_hostAddress = s.m_hostAddress := by
  unfold resetService; split <;> simp_all

@[simp] theorem resetService_m_port (silent : Bool) (s : ServiceState) :
    (resetService silent s).m_port = s.m_port := by
  unfold resetService; split <;> simp_all

@[simp] theorem resetService_m_serviceType (silent : Bool) (s : ServiceState) :
    (resetService silent s).m_serviceType = s.m_serviceType := by
  unfold resetService; split <;> simp_all

@[simp] theorem resetService_m_txtRecords (silent : Bool) (s : ServiceState) :
    (resetService silent s).m_txtRecords = s.m_txtRecords := by
  unfold resetService; split <;> simp_all

@[simp] theorem resetService_timerRunning (silent : Bool) (s : ServiceState) :
    (resetService silent s).timerRunning = if s.group = none then s.timerRunning else false := by
  unfold resetService; split <;> simp_all

@[simp] theorem resetService_timerIntervalMs (silent : Bool) (s : ServiceState) :
    (resetService silent s).timerIntervalMs = s.timerIntervalMs := by
  unfold resetService; split <;> simp_all

@[simp] theorem resetService_timerSingleShot (silent : Bool) (s : ServiceState) :
    (resetService silent s).timerSingleShot = s.timerSingleShot := by
  unfold resetService; split <;> simp_all

@[simp] theorem resetService_dname (silent : Bool) (s : ServiceState) :
    (resetService silent s).dname = s.dname := by
  unfold resetService; split <;> simp_all

@[simp] theorem resetService_dhostAddress (silent : Bool) (s : ServiceState) :
    (resetService silent s).dhostAddress = s.dhostAddress := by
  unfold resetService; split <;> simp_all

@[simp] theorem resetService_dport (silent : Bool) (s : ServiceState) :
    (resetService silent s).dport = s.dport := by
  unfold resetService; split <;> simp_all

@[simp] theorem resetService_dtype (silent : Bool) (s : ServiceState) :
    (resetService silent s).dtype = s.dtype := by
  unfold resetService; split <;> simp_all

@[simp] theorem resetService_dtxtRecords (silent : Bool) (s : ServiceState) :
    (resetService silent s).dtxtRecords = s.dtxtRecords := by
  unfold resetService; split <;> simp_all

@[simp] theorem resetService_group (silent : Bool) (s : ServiceState) :
    (resetService silent s).group = if s.group = none then none else some true := by
  unfold resetService; split <;> simp_all

@[simp] theorem resetService_serviceList (silent : Bool) (s : ServiceState) :
    (resetService silent s).serviceList = if s.group = none then s.serviceList else false := by
  unfold resetService; split <;> simp_all

@[simp] theorem resetService_error (silent : Bool) (s : ServiceState) :
    (resetService silent s).error = s.error := by
  unfold resetService; split <;> simp_all

@[simp] theorem resetService_lastIfIndex (silent : Bool) (s : ServiceState) :
    (resetService silent s).lastIfIndex = s.lastIfIndex := by
  unfold resetService; split <;> simp_all


theorem ensureGroup_eq_of_ne_some_false {s : ServiceState} (h : s.group ≠ some false) :
    ensureGroup s = { s with group := some true } := by
  unfold ensureGroup
  split
  · rfl
  · rcases hg : s.group with _ | b
    · simp_all
    · cases b
      · simp_all
      · cases s
        simp_all

theorem length_alternative_name (n : String) :
    (avahi_alternative_service_name n).length = n.length + 3 := by
  unfold avahi_alternative_service_name
  rw [String.length_append]
  rfl

theorem name_le_length_alternative (n : String) :
    n.length ≤ (avahi_alternative_service_name n).length := by
  rw [length_alternative_name]
  omega

theorem alternative_name_ne (n : String) : avahi_alternative_service_name n ≠ n := by
  intro h
  have h2 := congrArg String.length h
  rw [length_alternative_name] at h2
  omega

theorem ServiceState.name_eq (s : ServiceState) : s.name = s.dname := rfl

theorem ServiceState.hostAddress_eq (s : ServiceState) : s.hostAddress = s.dhostAddress := rfl

theorem ServiceState.port_eq (s : ServiceState) : s.port = s.dport := rfl

theorem ServiceState.serviceType_eq (s : ServiceState) : s.serviceType = s.dtype := rfl

theorem ServiceState.txtRecords_eq (s : ServiceState) : s.txtRecords = s.dtxtRecords := rfl

theorem registerService_main (env : Env) : ∀ (fuel : Nat) (name : String)
    (hostAddress : QHostAddress) (port : Nat) (serviceType : String) (txtRecords : TxtMap)
    (silent : Bool) (s : ServiceState),
    (registerService fuel env name hostAddress port serviceType txtRecords silent s).2.m_state
        = s.m_state ∧
    (registerService fuel env name hostAddress port serviceType txtRecords silent s).2.timerIntervalMs
        = s.timerIntervalMs ∧
    (registerService fuel env name hostAddress port serviceType txtRecords silent s).2.timerSingleShot
        = s.timerSingleShot ∧
    ((registerService fuel env name hostAddress port serviceType txtRecords silent s).1 = true →
      (registerService fuel env name hostAddress port serviceType txtRecords silent s).2.group
        = some false) ∧
    ((registerService fuel env name hostAddress port serviceType txtRecords silent s).1 = true →
      (registerService fuel env name hostAddress port serviceType txtRecords silent s).2.timerRunning
        = true) ∧
    ((registerService fuel env name hostAddress port serviceType txtRecords silent s).1 = true →
      name.length ≤
        (registerService fuel env name hostAddress port serviceType txtRecords silent s).2.m_name.length) ∧
    ((s.timerRunning = true → s.group = some false) →
      (registerService fuel env name hostAddress port serviceType txtRecords silent s).2.timerRunning
          = true →
      (registerService fuel env name hostAddress port serviceType txtRecords silent s).2.group
        = some false) ∧
    (clientReady env = true → s.group ≠ some false →
      (registerService fuel env name hostAddress port serviceType txtRecords silent s).2.lastIfIndex
        = some (resolveIfIndex hostAddress env.interfaces)) := by
  intro fuel
  induction fuel with
  | zero =>
    intro name hostAddress port serviceType txtRecords silent s
    by_cases hr : clientReady env
    · by_cases hsf : s.group = some false
      · rw [registerService, ensureGroup_of_ne_none (by simp [hsf])]
        simp [hr, hsf]
      · have hens :
            (ensureGroup (cacheDescriptor name hostAddress port serviceType txtRecords s)).group
              = some true := by
          rw [ensureGroup_eq_of_ne_some_false (by simp [hsf])]
        rw [registerService]
        by_cases he : env.addServiceError name = 0
        · simp [hr, hens, he]
          intro hco
          simp_all
        · by_cases hco : env.addServiceError name = AVAHI_ERR_COLLISION
          · simp [hr, hens, he, hco, AVAHI_ERR_COLLISION]
            intro h
            cases ht : s.timerRunning with
            | false => rfl
            | true => exact absurd (h ht) hsf
          · simp [hr, hens, he, hco]
            intro h
            cases ht : s.timerRunning with
            | false => rfl
            | true => exact absurd (h ht) hsf
    · simp [registerService, hr]
  | succ n ih =>
    intro name hostAddress port serviceType txtRecords silent s
    by_cases hr : clientReady env
    · by_cases hsf : s.group = some false
      · rw [registerService, ensureGroup_of_ne_none (by simp [hsf])]
        simp [hr, hsf]
      · have hens :
            (ensureGroup (cacheDescriptor name hostAddress port serviceType txtRecords s)).group
              = some true := by
          rw [ensureGroup_eq_of_ne_some_false (by simp [hsf])]
        rw [registerService]
        by_cases he : env.addServiceError name = 0
        · simp [hr, hens, he]
          intro hco
          simp_all
        · by_cases hco : env.addServiceError name = AVAHI_ERR_COLLISION
          · have hcol0 : ¬(AVAHI_ERR_COLLISION = (0 : Int)) := by decide
            simp only [hr, hens, addService_error, he, hco, hcol0, if_true, ite_true, if_false,
              ite_false, eq_self_iff_true, not_false_iff]
            set c := cacheDescriptor name hostAddress port serviceType txtRecords s with hcdef
            set s2 := addService env (resolveIfIndex hostAddress env.interfaces) name
              (ensureGroup c) with hs2def
            set s3 := resetService false s2 with hs3def
            have hs2name : s2.name = name := by
              rw [ServiceState.name_eq, hs2def]
              simp [hcdef]
            have hs3host : s3.hostAddress = hostAddress := by
              rw [ServiceState.hostAddress_eq, hs3def, hs2def]
              simp [hcdef]
            have hs3state : s3.m_state = s.m_state := by
              rw [hs3def, hs2def]
              simp [hcdef]
            have hs3int : s3.timerIntervalMs = s.timerIntervalMs := by
              rw [hs3def, hs2def]
              simp [hcdef]
            have hs3single : s3.timerSingleShot = s.timerSingleShot := by
              rw [hs3def, hs2def]
              simp [hcdef]
            have hs3group : s3.group = some true := by
              rw [hs3def]
              simp [hs2def]
            have hs3timer : s3.timerRunning = false := by
              rw [hs3def]
              simp [hs2def]
            obtain ⟨h1, h2, h3, h4, h5, h6, h7, h8⟩ :=
              ih (avahi_alternative_service_name s2.name) s3.hostAddress s3.port s3.serviceType
                s3.txtRecords false s3
            set r := registerService n env (avahi_alternative_service_name s2.name) s3.hostAddress
              s3.port s3.serviceType s3.txtRecords false s3 with hrdef
            by_cases hb : r.1 = true
            · simp only [if_pos hb]
              refine ⟨by simp [h1, hs3state], by simp [h2, hs3int], by simp [h3, hs3single],
                ?_, ?_, ?_, ?_, ?_⟩
              · simp [h4 hb]
              · simp only [commitGroup_fst, commitGroup_snd_timerRunning, decide_eq_true_eq]
                intro hcE
                simp [hcE]
              · intro _
                rw [commitGroup_snd_m_name]
                refine le_trans ?_ (h6 hb)
                rw [hs2name]
                exact name_le_length_alternative name
              · intro _ _
                simp [h4 hb]
              · intro _ _
                rw [commitGroup_snd_lastIfIndex, h8 hr (by rw [hs3group]; simp), hs3host]
            · simp only [if_neg hb]
              refine ⟨by simp [h1, hs3state], by simp [h2, hs3int], by simp [h3, hs3single],
                by simp, by simp, by simp, ?_, ?_⟩
              · intro _ ht
                exact h7 (fun hh => absurd hh (by simp [hs3timer])) ht
              · intro _ _
                rw [show ((false, r.2) : Bool × ServiceState).2 = r.2 from rfl,
                  h8 hr (by rw [hs3group]; simp), hs3host]
          · simp [hr, hens, he, hco]
            intro h
            cases ht : s.timerRunning with
            | false => rfl
            | true => exact absurd (h ht) hsf
    · simp [registerService, hr]

theorem updateTxtRecord_frame (env : Env) (txtRecords : TxtMap) (s : ServiceState) :
    (updateTxtRecord env txtRecords s).2.group = s.group ∧
    (updateTxtRecord env txtRecords s).2.timerRunning = s.timerRunning ∧
    (updateTxtRecord env txtRecords s).2.m_state = s.m_state ∧
    (updateTxtRecord env txtRecords s).2.timerIntervalMs = s.timerIntervalMs ∧
    (updateTxtRecord env txtRecords s).2.timerSingleShot = s.timerSingleShot ∧
    (updateTxtRecord env txtRecords s).2.dtxtRecords = s.dtxtRecords := by
  unfold updateTxtRecord
  split
  · simp
  · split <;> simp

theorem handleCollision_frame (fuel : Nat) (env : Env) (s : ServiceState) :
    (handleCollision fuel env s).2.m_state = s.m_state ∧
    (handleCollision fuel env s).2.timerIntervalMs = s.timerIntervalMs ∧
    (handleCollision fuel env s).2.timerSingleShot = s.timerSingleShot := by
  unfold handleCollision
  refine ⟨?_, ?_, ?_⟩
  · rw [(registerService_main env fuel _ _ _ _ _ _ _).1]
    simp
  · rw [(registerService_main env fuel _ _ _ _ _ _ _).2.1]
    simp
  · rw [(registerService_main env fuel _ _ _ _ _ _ _).2.2.1]
    simp

theorem handleCollision_timer_inv (fuel : Nat) (env : Env) (s : ServiceState)
    (h : s.timerRunning = true → s.group = some false) :
    (handleCollision fuel env s).2.timerRunning = true →
      (handleCollision fuel env s).2.group = some false := by
  unfold handleCollision
  refine (registerService_main env fuel _ _ _ _ _ _ _).2.2.2.2.2.2.1 ?_
  intro ht
  rcases hg : s.group with _ | b
  · rw [resetService_of_none hg] at ht ⊢
    exact h ht
  · rw [resetService_of_ne_none (by simp [hg])] at ht
    simp at ht

theorem handleCollision_m_name_ne (fuel : Nat) (env : Env) (s : ServiceState)
    (h : (handleCollision fuel env s).1 = true) :
    (handleCollision fuel env s).2.m_name ≠ s.name := by
  unfold handleCollision at h ⊢
  have h6 := (registerService_main env fuel (avahi_alternative_service_name s.name)
    (resetService false s).hostAddress (resetService false s).port
    (resetService false s).serviceType (resetService false s).txtRecords false
    (resetService false s)).2.2.2.2.2.1 h
  intro heq
  rw [heq] at h6
  have h3 := length_alternative_name s.name
  omega

theorem reachable_timer_group {s : ServiceState} (h : Reachable s) :
    s.timerRunning = true → s.group = some false := by
  induction h with
  | init =>
    intro ht
    simp [initState] at ht
  | @step t t' hr hstep ih =>
    cases hstep with
    | register fuel env name hostAddress port serviceType txtRecords silent =>
      exact (registerService_main env fuel name hostAddress port serviceType txtRecords
        silent t).2.2.2.2.2.2.1 ih
    | reset silent =>
      intro ht
      rcases hg : t.group with _ | b
      · rw [resetService_of_none hg] at ht ⊢
        exact ih ht
      · rw [resetService_of_ne_none (by simp [hg])] at ht
        simp at ht
    | update env txtRecords =>
      intro ht
      rw [(updateTxtRecord_frame env txtRecords t).1]
      rw [(updateTxtRecord_frame env txtRecords t).2.1] at ht
      exact ih ht
    | stateChanged fuel env st =>
      unfold onStateChanged
      split
      · exact ih
      · split
        · exact handleCollision_timer_inv fuel env _ (fun ht => ih ht)
        · exact ih
    | timer fuel env =>
      unfold timerFired
      split
      · refine (registerService_main env fuel _ _ _ _ _ _ _).2.2.2.2.2.2.1 ?_
        intro ht0
        simp at ht0
      · exact ih

theorem reachable_timer_constants {s : ServiceState} (h : Reachable s) :
    s.timerIntervalMs = 60000 ∧ s.timerSingleShot = true := by
  induction h with
  | init => exact ⟨rfl, rfl⟩
  | @step t t' hr hstep ih =>
    cases hstep with
    | register fuel env name hostAddress port serviceType txtRecords silent =>
      have hm := registerService_main env fuel name hostAddress port serviceType txtRecords
        silent t
      exact ⟨hm.2.1.trans ih.1, hm.2.2.1.trans ih.2⟩
    | reset silent =>
      exact ⟨by simp [ih.1], by simp [ih.2]⟩
    | update env txtRecords =>
      have hf := updateTxtRecord_frame env txtRecords t
      exact ⟨hf.2.2.2.1.trans ih.1, hf.2.2.2.2.1.trans ih.2⟩
    | stateChanged fuel env st =>
      unfold onStateChanged
      split
      · exact ih
      · split
        · have hf := handleCollision_frame fuel env
            { t with m_state := QtAvahiServiceState.Collision }
          exact ⟨hf.2.1.trans ih.1, hf.2.2.trans ih.2⟩
        · exact ih
    | timer fuel env =>
      unfold timerFired
      split
      · have hm := registerService_main env fuel ({ t with timerRunning := false }).m_name
          ({ t with timerRunning := false }).m_hostAddress
          ({ t with timerRunning := false }).m_port
          ({ t with timerRunning := false }).m_serviceType
          ({ t with timerRunning := false }).m_txtRecords true
          (resetService true { t with timerRunning := false })
        refine ⟨hm.2.1.trans ?_, hm.2.2.1.trans ?_⟩
        · simp [ih.1]
        · simp [ih.2]
      · exact ih

/-- C1, counterexample: with two interfaces whose subnets both contain the
bind address, the code resolves the index of the second (last) interface,
while the claim's first-match rule picks the first; `registerService`
passes the last-match index to the discovery layer. -/
theorem C1_counterexample :
    resolveIfIndex overlapAddress [ifaceOne, ifaceTwo] = 2 ∧
    resolveIfIndexSpecFirst overlapAddress [ifaceOne, ifaceTwo] = 1 ∧
    (registerService 1 envTwoIfaces "svc" overlapAddress 9100 "_ipp._tcp" [] false
      initState).2.lastIfIndex = some 2 := by
  decide

/-- C1 (amended): the interface index resolved for a non-wildcard bind
address — and passed to the discovery layer by both `registerService` and
`updateTxtRecord` — is that of the LAST local interface whose (IP,
netmask) subnet contains the address (iterating interfaces in order, the
inner break only ends the per-interface entry scan), and the unspecified
index is used for the wildcard address or when no interface matches. -/
theorem C1_interface_resolution_last_match (hostAddress : QHostAddress)
    (interfaces : List QNetworkInterface) (fuel : Nat) (env : Env) (name : String) (port : Nat)
    (serviceType : String) (txtRecords : TxtMap) (silent : Bool) (s : ServiceState) :
    resolveIfIndex hostAddress interfaces = resolveIfIndexSpecLast hostAddress interfaces ∧
    resolveIfIndex wildcardAddress interfaces = AVAHI_IF_UNSPEC ∧
    (clientReady env = true → s.group ≠ some false →
      (registerService fuel env name hostAddress port serviceType txtRecords silent
        s).2.lastIfIndex = some (resolveIfIndex hostAddress env.interfaces)) ∧
    (s.group ≠ none →
      (updateTxtRecord env txtRecords s).2.lastIfIndex
        = some (resolveIfIndex s.dhostAddress env.interfaces)) := by
  refine ⟨resolveIfIndex_eq_specLast hostAddress interfaces, by simp [resolveIfIndex], ?_, ?_⟩
  · intro h1 h2
    exact (registerService_main env fuel name hostAddress port serviceType txtRecords silent
      s).2.2.2.2.2.2.2 h1 h2
  · intro hne
    unfold updateTxtRecord
    rw [if_neg hne]
    by_cases hu : env.updateTxtError = 0 <;> simp [hu]

/-- C2, counterexample: a second Register without a reset fails on the
non-empty group, yet the error code from the first (successful) commit is
still zero and the group exists, so `isValid` stays true, contradicting
the claim that every failing Register leaves `IsValid()` false. -/
theorem C2_counterexample :
    (registerService 1 envOk "printer" wildcardAddress 9100 "_ipp._tcp" [] false
      initState).1 = true ∧
    (registerService 1 envOk "printer2" wildcardAddress 9100 "_ipp._tcp" [] false
      (registerService 1 envOk "printer" wildcardAddress 9100 "_ipp._tcp" [] false
        initState).2).1 = false ∧
    (registerService 1 envOk "printer2" wildcardAddress 9100 "_ipp._tcp" [] false
      (registerService 1 envOk "printer" wildcardAddress 9100 "_ipp._tcp" [] false
        initState).2).2.isValid = true := by
  decide

/-- C2 (amended): `ErrorString()` is never empty; a Register rejected by
the not-running precondition returns false with the state untouched, and
one rejected by the non-empty-group check returns false having only
overwritten the cached descriptor — in both cases `isValid` keeps its
previous value, which may be true.  A Register failing with a
discovery-layer error — add-service (non-collision, leaving the group
empty so nothing is committed) or commit — records the non-zero error
code, so afterwards `isValid` is false. -/
theorem C2_register_failure_validity (fuel : Nat) (env : Env) (name : String)
    (hostAddress : QHostAddress) (port : Nat) (serviceType : String) (txtRecords : TxtMap)
    (silent : Bool) (s : ServiceState) :
    errorString env ≠ "" ∧
    (clientReady env = false →
      registerService fuel env name hostAddress port serviceType txtRecords silent s
        = (false, s)) ∧
    (clientReady env = true → s.group = some false →
      registerService fuel env name hostAddress port serviceType txtRecords silent s
        = (false, cacheDescriptor name hostAddress port serviceType txtRecords s)) ∧
    (clientReady env = true → s.group ≠ some false → env.addServiceError name ≠ 0 →
      env.addServiceError name ≠ AVAHI_ERR_COLLISION →
      (registerService fuel env name hostAddress port serviceType txtRecords silent s).1
          = false ∧
      (registerService fuel env name hostAddress port serviceType txtRecords silent s).2.isValid
          = false ∧
      (registerService fuel env name hostAddress port serviceType txtRecords silent s).2.group
          = some true) ∧
    (clientReady env = true → s.group ≠ some false → env.addServiceError name = 0 →
      env.commitError ≠ 0 →
      (registerService fuel env name hostAddress port serviceType txtRecords silent s).1
          = false ∧
      (registerService fuel env name hostAddress port serviceType txtRecords silent s).2.isValid
          = false) := by
  refine ⟨?_, ?_, ?_, ?_, ?_⟩
  · unfold errorString avahi_strerror
    split
    · decide
    · split
      · decide
      · split <;> decide
  · intro h
    rw [registerService]
    simp [h]
  · intro h hsf
    rw [registerService, ensureGroup_of_ne_none (by simp [hsf])]
    simp [h, hsf]
  · intro h hsf he hcoll
    have hens :
        (ensureGroup (cacheDescriptor name hostAddress port serviceType txtRecords s)).group
          = some true := by
      rw [ensureGroup_eq_of_ne_some_false (by simp [hsf])]
    rw [registerService]
    simp [h, hens, he, hcoll, ServiceState.isValid]
  · intro h hsf he hce
    have hens :
        (ensureGroup (cacheDescriptor name hostAddress port serviceType txtRecords s)).group
          = some true := by
      rw [ensureGroup_eq_of_ne_some_false (by simp [hsf])]
    rw [registerService]
    simp [h, hens, he, hce, ServiceState.isValid]

/-- C3, counterexample: after registering with one TXT mapping, an
accepted `updateTxtRecord` with a new mapping returns true, yet the
metadata observed through the `txtRecords()` accessor (used by collision
retries) still holds the old mapping, not the new one. -/
theorem C3_counterexample :
    (updateTxtRecord envOk [("note", "lab")] sRegistered).1 = true ∧
    (updateTxtRecord envOk [("note", "lab")] sRegistered).2.txtRecords
      = [("note", "office")] ∧
    [("note", "office")] ≠ [("note", "lab")] := by
  decide

/-- C3 (amended): `updateTxtRecord` with no group returns false and
changes nothing.  With a group it stores the new mapping into
`m_txtRecords` (the copy a refresh-timer retry uses) unconditionally,
even when the discovery layer rejects the update; it returns true iff the
discovery layer reports no error, records that error code, and never
touches the `d_ptr` copy behind the `txtRecords()` accessor, which keeps
the metadata of the last `registerService` call. -/
theorem C3_update_metadata (env : Env) (txtRecords : TxtMap) (s : ServiceState) :
    (s.group = none → updateTxtRecord env txtRecords s = (false, s)) ∧
    (s.group ≠ none →
      (updateTxtRecord env txtRecords s).2.m_txtRecords = txtRecords ∧
      (updateTxtRecord env txtRecords s).2.txtRecords = s.txtRecords ∧
      ((updateTxtRecord env txtRecords s).1 = true ↔ env.updateTxtError = 0) ∧
      (updateTxtRecord env txtRecords s).2.error = env.updateTxtError) := by
  constructor
  · intro h
    unfold updateTxtRecord
    rw [if_pos h]
  · intro h
    unfold updateTxtRecord
    rw [if_neg h]
    by_cases hu : env.updateTxtError = 0 <;>
      simp [hu, ServiceState.txtRecords]

/-- C4: handling a collision computes the alternative service name —
always distinct from the current name — resets the service, and calls
`registerService` again with that alternative name and the current
registration's host address, port, service type and TXT records; when the
retry chain succeeds, the finally cached name differs from the name that
collided. -/
theorem C4_collision_retry (fuel : Nat) (env : Env) (s : ServiceState) :
    handleCollision fuel env s =
      registerService fuel env (avahi_alternative_service_name s.name) s.hostAddress s.port
        s.serviceType s.txtRecords false (resetService false s) ∧
    avahi_alternative_service_name s.name ≠ s.name ∧
    ((handleCollision fuel env s).1 = true →
      (handleCollision fuel env s).2.m_name ≠ s.name) := by
  refine ⟨?_, alternative_name_ne s.name, handleCollision_m_name_ne fuel env s⟩
  unfold handleCollision
  rcases hg : s.group with _ | b
  · rw [resetService_of_none hg]
  · rw [resetService_of_ne_none (by simp [hg])]
    simp [ServiceState.hostAddress_eq, ServiceState.port_eq, ServiceState.serviceType_eq,
      ServiceState.txtRecords_eq]

/-- C5: delivering a state equal to the cached one changes nothing;
delivering a different state caches it and, exactly when the new state is
`Collision`, additionally runs the collision handling, all other states
producing no further effect. -/
theorem C5_state_change_idempotent (fuel : Nat) (env : Env) (st : QtAvahiServiceState)
    (s : ServiceState) :
    (s.m_state = st → onStateChanged fuel env st s = s) ∧
    (s.m_state ≠ st → (onStateChanged fuel env st s).m_state = st) ∧
    (s.m_state ≠ st → st ≠ QtAvahiServiceState.Collision →
      onStateChanged fuel env st s = { s with m_state := st }) ∧
    (s.m_state ≠ st → st = QtAvahiServiceState.Collision →
      onStateChanged fuel env st s =
        (handleCollision fuel env { s with m_state := st }).2) := by
  refine ⟨?_, ?_, ?_, ?_⟩
  · intro h
    unfold onStateChanged
    rw [if_pos h]
  · intro h
    unfold onStateChanged
    rw [if_neg h]
    cases st
    case Collision =>
      dsimp only
      rw [(handleCollision_frame fuel env _).1]
    all_goals rfl
  · intro h hst
    unfold onStateChanged
    rw [if_neg h]
    cases st <;> simp_all
  · intro h hst
    subst hst
    unfold onStateChanged
    rw [if_neg h]

/-- C6, counterexample: right after a successful Register on a fresh
service the refresh timer is armed while the cached state is still
`Uncommitted` (the asynchronous callback has not run), so `Established`
is not the only state in which the timer runs. -/
theorem C6_counterexample :
    Reachable (registerService 1 envOk "printer" wildcardAddress 9100 "_ipp._tcp" [] false
      initState).2 ∧
    (registerService 1 envOk "printer" wildcardAddress 9100 "_ipp._tcp" [] false
      initState).2.timerRunning = true ∧
    (registerService 1 envOk "printer" wildcardAddress 9100 "_ipp._tcp" [] false
      initState).2.m_state ≠ QtAvahiServiceState.Established :=
  ⟨Reachable.step Reachable.init
    (ServiceStep.register 1 envOk "printer" wildcardAddress 9100 "_ipp._tcp" [] false initState),
   by decide, by decide⟩

/-- C6 (amended): in every reachable configuration, if the refresh timer
is running then the entry group exists and holds entries (a Register
succeeded since the last reset); the cached `RegistrationState` is
unconstrained — it may still be `Uncommitted` or `Registering` — so the
timer is tied to a successful registration, not to the `Established`
state. -/
theorem C6_timer_only_after_success {s : ServiceState} (h : Reachable s)
    (ht : s.timerRunning = true) : s.group = some false :=
  reachable_timer_group h ht

/-- C7: every Register that returns true leaves the single-shot
60000 ms refresh timer running; in any reachable configuration the timer
parameters are that fixed interval and single-shot mode; and a timer
firing in a reachable timer-armed configuration performs
`resetService true` followed immediately by `registerService` with the
cached `m_` descriptor fields, silent. -/
theorem C7_refresh_cycle (fuel : Nat) (env : Env) (name : String) (hostAddress : QHostAddress)
    (port : Nat) (serviceType : String) (txtRecords : TxtMap) (silent : Bool)
    (s : ServiceState) :
    ((registerService fuel env name hostAddress port serviceType txtRecords silent s).1 = true →
      (registerService fuel env name hostAddress port serviceType txtRecords silent
        s).2.timerRunning = true) ∧
    (Reachable s → s.timerIntervalMs = 60000 ∧ s.timerSingleShot = true) ∧
    (Reachable s → s.timerRunning = true →
      timerFired fuel env s =
        (registerService fuel env s.m_name s.m_hostAddress s.m_port s.m_serviceType
          s.m_txtRecords true (resetService true s)).2) := by
  refine ⟨(registerService_main env fuel name hostAddress port serviceType txtRecords silent
    s).2.2.2.2.1, fun h => reachable_timer_constants h, ?_⟩
  intro hre ht
  have hg : s.group = some false := reachable_timer_group hre ht
  unfold timerFired
  rw [if_pos ht]
  dsimp only
  rw [resetService_of_ne_none (by simp [hg]), resetService_of_ne_none (by simp [hg])]

/-- C8: when the avahi client is absent or not running, `registerService`
returns false and leaves the whole service state — descriptor caches,
group, error, cached state and timer — exactly as it was. -/
theorem C8_not_ready_no_mutation (fuel : Nat) (env : Env) (name : String)
    (hostAddress : QHostAddress) (port : Nat) (serviceType : String) (txtRecords : TxtMap)
    (silent : Bool) (s : ServiceState) (h : clientReady env = false) :
    registerService fuel env name hostAddress port serviceType txtRecords silent s
      = (false, s) := by
  rw [registerService]
  simp [h]

/-- C9: `resetService` without a group is a no-op; with a group it
releases the TXT string list, resets the group to empty and stops the
refresh timer while leaving the recorded error untouched; and running it
twice in a row yields exactly the configuration of the first run. -/
theorem C9_reset_idempotent (silent silent2 : Bool) (s : ServiceState) :
    (s.group = none → resetService silent s = s) ∧
    (s.group ≠ none →
      (resetService silent s).serviceList = false ∧
      (resetService silent s).group = some true ∧
      (resetService silent s).timerRunning = false ∧
      (resetService silent s).error = s.error) ∧
    resetService silent2 (resetService silent s) = resetService silent s := by
  refine ⟨fun h => resetService_of_none h, ?_, ?_⟩
  · intro h
    rw [resetService_of_ne_none h]
    exact ⟨rfl, rfl, rfl, rfl⟩
  · rcases hg : s.group with _ | b
    · rw [resetService_of_none hg, resetService_of_none hg]
    · rw [resetService_of_ne_none (by simp [hg]), resetService_of_ne_none (by simp [hg])]

/-- C10: a Register reaching past the precondition check overwrites both
copies of the cached descriptor (the `m_` fields used by the refresh
timer and the `d_ptr` fields used by collision retries) with the call's
arguments, also on the failing already-registered, add-service-error and
commit-error paths. -/
theorem C10_descriptor_overwritten (fuel : Nat) (env : Env) (name : String)
    (hostAddress : QHostAddress) (port : Nat) (serviceType : String) (txtRecords : TxtMap)
    (silent : Bool) (s : ServiceState) (h1 : clientReady env = true)
    (h2 : env.addServiceError name ≠ AVAHI_ERR_COLLISION) :
    (registerService fuel env name hostAddress port serviceType txtRecords silent s).2.m_name
        = name ∧
    (registerService fuel env name hostAddress port serviceType txtRecords silent
        s).2.m_hostAddress = hostAddress ∧
    (registerService fuel env name hostAddress port serviceType txtRecords silent s).2.m_port
        = port ∧
    (registerService fuel env name hostAddress port serviceType txtRecords silent
        s).2.m_serviceType = serviceType ∧
    (registerService fuel env name hostAddress port serviceType txtRecords silent
        s).2.m_txtRecords = txtRecords ∧
    (registerService fuel env name hostAddress port serviceType txtRecords silent s).2.dname
        = name ∧
    (registerService fuel env name hostAddress port serviceType txtRecords silent
        s).2.dhostAddress = hostAddress ∧
    (registerService fuel env name hostAddress port serviceType txtRecords silent s).2.dport
        = port ∧
    (registerService fuel env name hostAddress port serviceType txtRecords silent s).2.dtype
        = serviceType ∧
    (registerService fuel env name hostAddress port serviceType txtRecords silent
        s).2.dtxtRecords = txtRecords := by
  rw [registerService]
  by_cases hsf : s.group = some false
  · rw [ensureGroup_of_ne_none (by simp [hsf])]
    simp [h1, hsf]
  · have hens :
        (ensureGroup (cacheDescriptor name hostAddress port serviceType txtRecords s)).group
          = some true := by
      rw [ensureGroup_eq_of_ne_some_false (by simp [hsf])]
    by_cases he : env.addServiceError name = 0
    · simp [h1, hens, he]
    · simp [h1, hens, he, h2]

/-- C1 witness: the last-match theorem applied to the two-interface
scenario, discharging the ready-client and group hypotheses. -/
theorem C1_witness :
    (registerService 1 envTwoIfaces "svc" overlapAddress 9100 "_ipp._tcp" [] false
      sGroupEmpty).2.lastIfIndex = some (resolveIfIndex overlapAddress envTwoIfaces.interfaces) ∧
    (updateTxtRecord envTwoIfaces [] sGroupEmpty).2.lastIfIndex
      = some (resolveIfIndex sGroupEmpty.dhostAddress envTwoIfaces.interfaces) := by
  have h := C1_interface_resolution_last_match overlapAddress [ifaceOne, ifaceTwo] 1
    envTwoIfaces "svc" 9100 "_ipp._tcp" [] false sGroupEmpty
  exact ⟨h.2.2.1 (by decide) (by decide), h.2.2.2 (by decide)⟩

/-- C2 witness: the failure theorem applied to concrete add-error,
commit-error, client-down and already-registered scenarios. -/
theorem C2_witness :
    (registerService 1 envAddFail "printer" wildcardAddress 9100 "_ipp._tcp" [] false
      initState).1 = false ∧
    (registerService 1 envAddFail "printer" wildcardAddress 9100 "_ipp._tcp" [] false
      initState).2.isValid = false ∧
    (registerService 1 envCommitFail "printer" wildcardAddress 9100 "_ipp._tcp" [] false
      initState).2.isValid = false ∧
    registerService 1 envDown "printer" wildcardAddress 9100 "_ipp._tcp" [] false initState
      = (false, initState) ∧
    registerService 1 envOk "printer" wildcardAddress 9100 "_ipp._tcp" [] false sPrinter
      = (false, cacheDescriptor "printer" wildcardAddress 9100 "_ipp._tcp" [] sPrinter) ∧
    errorString envAddFail ≠ "" := by
  have hA := C2_register_failure_validity 1 envAddFail "printer" wildcardAddress 9100
    "_ipp._tcp" [] false initState
  have hC := C2_register_failure_validity 1 envCommitFail "printer" wildcardAddress 9100
    "_ipp._tcp" [] false initState
  have hD := C2_register_failure_validity 1 envDown "printer" wildcardAddress 9100
    "_ipp._tcp" [] false initState
  have hR := C2_register_failure_validity 1 envOk "printer" wildcardAddress 9100
    "_ipp._tcp" [] false sPrinter
  have h4 := hA.2.2.2.1 (by decide) (by decide) (by decide) (by decide)
  have h5 := hC.2.2.2.2 (by decide) (by decide) (by decide) (by decide)
  exact ⟨h4.1, h4.2.1, h5.2, hD.2.1 (by decide), hR.2.2.1 (by decide) (by decide), hA.1⟩

/-- C3 witness: the update theorem applied to the no-group and
group-present scenarios. -/
theorem C3_witness :
    updateTxtRecord envOk [("note", "lab")] initState = (false, initState) ∧
    (updateTxtRecord envOk [("note", "lab")] sRegistered).2.m_txtRecords = [("note", "lab")] ∧
    (updateTxtRecord envOk [("note", "lab")] sRegistered).2.txtRecords
      = sRegistered.txtRecords := by
  have h0 := C3_update_metadata envOk [("note", "lab")] initState
  have h1 := C3_update_metadata envOk [("note", "lab")] sRegistered
  have h2 := h1.2 (by decide)
  exact ⟨h0.1 rfl, h2.1, h2.2.1⟩

/-- C4 witness: a concrete collision for "printer" is retried under the
mangled name and established, and the resulting cached name differs from
the collided one. -/
theorem C4_witness :
    (handleCollision 1 envCollideOnce sPrinter).1 = true ∧
    (handleCollision 1 envCollideOnce sPrinter).2.m_name ≠ sPrinter.name := by
  have h := C4_collision_retry 1 envCollideOnce sPrinter
  exact ⟨by decide, h.2.2 (by decide)⟩

/-- C5 witness: same-state delivery is a no-op, a different non-collision
state is only cached, and a collision state additionally runs the
collision handling. -/
theorem C5_witness :
    onStateChanged 1 envOk QtAvahiServiceState.Uncommitted initState = initState ∧
    onStateChanged 1 envOk QtAvahiServiceState.Established initState
      = { initState with m_state := QtAvahiServiceState.Established } ∧
    onStateChanged 1 envCollideOnce QtAvahiServiceState.Collision sPrinter
      = (handleCollision 1 envCollideOnce
          { sPrinter with m_state := QtAvahiServiceState.Collision }).2 := by
  have h1 := C5_state_change_idempotent 1 envOk QtAvahiServiceState.Uncommitted initState
  have h2 := C5_state_change_idempotent 1 envOk QtAvahiServiceState.Established initState
  have h3 := C5_state_change_idempotent 1 envCollideOnce QtAvahiServiceState.Collision sPrinter
  exact ⟨h1.1 rfl, h2.2.2.1 (by decide) (by decide), h3.2.2.2 (by decide) rfl⟩

/-- C6 witness: the amended invariant applied to the reachable
just-registered state whose timer runs. -/
theorem C6_witness :
    (registerService 1 envOk "printer" wildcardAddress 9100 "_ipp._tcp" [] false
      initState).2.group = some false :=
  C6_timer_only_after_success
    (Reachable.step Reachable.init
      (ServiceStep.register 1 envOk "printer" wildcardAddress 9100 "_ipp._tcp" [] false
        initState))
    (by decide)

/-- C7 witness: the refresh theorem applied to the reachable registered
state: timer armed by the successful Register, 60 s single-shot
parameters, and the firing equation. -/
theorem C7_witness :
    (registerService 1 envOk "printer" wildcardAddress 9100 "_ipp._tcp" [] false
      initState).2.timerRunning = true ∧
    sRegistered.timerIntervalMs = 60000 ∧
    sRegistered.timerSingleShot = true ∧
    timerFired 1 envOk sRegistered =
      (registerService 1 envOk sRegistered.m_name sRegistered.m_hostAddress sRegistered.m_port
        sRegistered.m_serviceType sRegistered.m_txtRecords true
        (resetService true sRegistered)).2 := by
  have hre : Reachable sRegistered :=
    Reachable.step Reachable.init
      (ServiceStep.register 1 envOk "printer" wildcardAddress 9100 "_ipp._tcp"
        [("note", "office")] false initState)
  have h := C7_refresh_cycle 1 envOk "printer" wildcardAddress 9100 "_ipp._tcp" [] false
    sRegistered
  refine ⟨?_, (h.2.1 hre).1, (h.2.1 hre).2, h.2.2 hre (by decide)⟩
  exact (C7_refresh_cycle 1 envOk "printer" wildcardAddress 9100 "_ipp._tcp" [] false
    initState).1 (by decide)

/-- C8 witness: the precondition theorem applied to a client that was
never created. -/
theorem C8_witness :
    registerService 0 envDown "printer" wildcardAddress 9100 "_ipp._tcp" [] false initState
      = (false, initState) :=
  C8_not_ready_no_mutation 0 envDown "printer" wildcardAddress 9100 "_ipp._tcp" [] false
    initState (by decide)

/-- C9 witness: the reset theorem applied to a groupless and to a
registered service. -/
theorem C9_witness :
    resetService false initState = initState ∧
    (resetService false sPrinter).group = some true ∧
    (resetService false sPrinter).timerRunning = false ∧
    resetService true (resetService false sPrinter) = resetService false sPrinter := by
  have h0 := C9_reset_idempotent false true initState
  have h1 := C9_reset_idempotent false true sPrinter
  exact ⟨h0.1 rfl, (h1.2.1 (by decide)).2.1, (h1.2.1 (by decide)).2.2.1, h1.2.2⟩

/-- C10 witness: a Register failing at commit still overwrote both cached
descriptor copies with the call's arguments. -/
theorem C10_witness :
    (registerService 1 envCommitFail "printer" wildcardAddress 9100 "_ipp._tcp"
      [("note", "office")] false initState).1 = false ∧
    (registerService 1 envCommitFail "printer" wildcardAddress 9100 "_ipp._tcp"
      [("note", "office")] false initState).2.m_name = "printer" ∧
    (registerService 1 envCommitFail "printer" wildcardAddress 9100 "_ipp._tcp"
      [("note", "office")] false initState).2.dtxtRecords = [("note", "office")] := by
  have h := C10_descriptor_overwritten 1 envCommitFail "printer" wildcardAddress 9100
    "_ipp._tcp" [("note", "office")] false initState (by decide) (by decide)
  exact ⟨by decide, h.1, h.2.2.2.2.2.2.2.2.2⟩
